import Mathlib

/-!
Verification of the query-lifecycle client in `src/index.ts` and
`src/lib/request.ts` (the `AthenaRequest` class, the `createClient`
factory, and the retry helpers `isRetryException` / `canRetry`).

The TypeScript is shallowly embedded:

* JavaScript `x || d` on numbers/strings is modelled by `jsOrNat` /
  `jsOrStr` (JS treats `undefined`, `0` and `""` as falsy).
* An `Error` value is modelled by `JsError`: whether it is an
  `instanceof TooManyRequestsException`, plus its `message`.
* Each retry loop (`loopFunc` in `startQuery`, `stopQuery`,
  `getQueryExecution`) is modelled by a function from a call oracle
  (attempt number to remote outcome) to the final outcome of the chain of
  `loopFunc` invocations together with a trace of the events the Promise
  executor performs.  Crucially, the executor bodies contain no call to
  `resolve` or `reject` (the value returned or thrown by the `async`
  `loopFunc` is discarded), so the traces contain only `waited` events:
  an empty list of settle events means the Promise handed to the caller
  stays pending forever.
-/

/-- JS `v || d` for an optional number: `undefined` and `0` are falsy. -/
def jsOrNat (v : Option Nat) (d : Nat) : Nat :=
  match v with
  | none => d
  | some n => if n = 0 then d else n

/-- JS `v || d` for an optional string: `undefined` and `""` are falsy. -/
def jsOrStr (v : Option String) (d : String) : String :=
  match v with
  | none => d
  | some s => if s = "" then d else s

/-- `AthenaRequestConfig` from `src/lib/request.ts` (lines 61-70).
`bucketUri` is required by the interface; every other field is optional.
Numeric fields are modelled as `Nat` (they are millisecond counts /
attempt counts). -/
structure AthenaRequestConfig where
  bucketUri : String
  baseRetryWait : Option Nat
  retryWaitMax : Option Nat
  retryCountMax : Option Nat
  database : Option String
  encryptionOption : Option String
  encryptionKmsKey : Option String
  workGroup : Option String
deriving DecidableEq

/-- `const defaultBaseRetryWait = 200` (line 72). -/
def defaultBaseRetryWait : Nat := 200

/-- `const defaultRetryWaitMax = 10000` (line 73). -/
def defaultRetryWaitMax : Nat := 10000

/-- `const defaultRetryCountMax = 10` (line 74). -/
def defaultRetryCountMax : Nat := 10

/-- A JS error value as inspected by `isRetryException`:
`err instanceof TooManyRequestsException` and `err.message`.
A plain `new Error(msg)` is `⟨false, msg⟩`. -/
structure JsError where
  isTooManyRequests : Bool
  message : String
deriving DecidableEq

/-- `isRetryException` (lines 234-240): the error is an
`instanceof TooManyRequestsException`, or its message is the
scale-factor exhaustion message.  (The `ThrottlingException` check is
commented out in the source.) -/
def isRetryException (err : JsError) : Bool :=
  err.isTooManyRequests ||
    err.message == "Query exhausted resources at this scale factor"

/-- `canRetry` (lines 242-244): `retryCount < (config.retryCountMax || defaultRetryCountMax)`. -/
def canRetry (retryCount : Nat) (config : AthenaRequestConfig) : Bool :=
  retryCount < jsOrNat config.retryCountMax defaultRetryCountMax

/-- The wait computed in `startQuery` (lines 112-115):
`wait = (config.baseRetryWait || default) * 2 ** retryCount` capped by
`Math.min(wait, config.retryWaitMax || default)`. -/
def startQueryWait (config : AthenaRequestConfig) (retryCount : Nat) : Nat :=
  min (jsOrNat config.baseRetryWait defaultBaseRetryWait * 2 ^ retryCount)
    (jsOrNat config.retryWaitMax defaultRetryWaitMax)

/-- The wait computed in `stopQuery` (lines 178-181):
`Math.pow(config.baseRetryWait || default, retryCount)` — the base raised
to the power `retryCount`, with no cap. -/
def stopQueryWait (config : AthenaRequestConfig) (retryCount : Nat) : Nat :=
  jsOrNat config.baseRetryWait defaultBaseRetryWait ^ retryCount

/-- The wait computed in `getQueryExecution` (lines 205-208): the same
uncapped `Math.pow(config.baseRetryWait || default, retryCount)` as in
`stopQuery`. -/
def getQueryExecutionWait (config : AthenaRequestConfig) (retryCount : Nat) : Nat :=
  jsOrNat config.baseRetryWait defaultBaseRetryWait ^ retryCount

/-- An observable event of a Promise executor: a scheduled retry wait, or
a call to the executor's `resolve` / `reject` callbacks. -/
inductive TraceEv where
  | waited (ms : Nat)
  | resolvedStr (s : String)
  | resolvedBool (b : Bool)
  | resolvedUnit
  | rejected (e : JsError)
deriving DecidableEq

/-- Events that settle the Promise (everything except a wait). -/
def isSettleEv : TraceEv → Bool
  | TraceEv.waited _ => false
  | _ => true

/-- The `EncryptionConfiguration` block built in `startQuery` (lines 90-97). -/
structure EncryptionConfiguration where
  EncryptionOption : String
  KmsKey : Option String
deriving DecidableEq

/-- The `StartQueryExecutionInput` params object built in `startQuery`
(lines 86-103). -/
structure StartQueryExecutionInput where
  QueryString : String
  OutputLocation : String
  EncryptionConfiguration : Option EncryptionConfiguration
  Database : String
  WorkGroup : String
deriving DecidableEq

/-- The `params` object of `startQuery` (lines 86-103): output location
from `config.bucketUri`; the encryption block only when
`config.encryptionOption` is truthy, with `KmsKey` only when
`config.encryptionKmsKey` is truthy; `Database: config.database || 'default'`;
`WorkGroup: config.workGroup || 'primary'`. -/
def buildStartParams (query : String) (config : AthenaRequestConfig) :
    StartQueryExecutionInput :=
  { QueryString := query
    OutputLocation := config.bucketUri
    EncryptionConfiguration :=
      match config.encryptionOption with
      | none => none
      | some opt =>
        if opt = "" then none
        else
          some { EncryptionOption := opt
                 KmsKey :=
                   match config.encryptionKmsKey with
                   | none => none
                   | some k => if k = "" then none else some k }
    Database := jsOrStr config.database "default"
    WorkGroup := jsOrStr config.workGroup "primary" }

/-- The chain of `loopFunc` invocations in `startQuery` (lines 104-121),
starting at a given `retryCount`.  `oracle n` is the outcome of the
`athena.send(new StartQueryExecutionCommand(params))` call performed by the
`(n+1)`-th invocation.  The first component is the value the last
`loopFunc` returns (`data.QueryExecutionId`) or the error it throws; the
second component is the trace of executor events.  On success the source
merely executes `return data.QueryExecutionId` and on a non-retryable
error `throw err` — neither calls `resolve` or `reject`, so no settle
event is ever emitted; a retry schedules `setTimeout(loopFunc, wait)`
after incrementing `retryCount`. -/
def startQueryRun (oracle : Nat → Except JsError String)
    (config : AthenaRequestConfig) (retryCount : Nat) :
    Except JsError String × List TraceEv :=
  match oracle retryCount with
  | Except.ok qid => (Except.ok qid, [])
  | Except.error err =>
    if h : (isRetryException err && canRetry retryCount config) = true then
      let rest := startQueryRun oracle config (retryCount + 1)
      (rest.1, TraceEv.waited (startQueryWait config retryCount) :: rest.2)
    else (Except.error err, [])
termination_by jsOrNat config.retryCountMax defaultRetryCountMax - retryCount
decreasing_by
  simp only [canRetry, Bool.and_eq_true, decide_eq_true_eq] at h
  omega

/-- The chain of `loopFunc` invocations in `stopQuery` (lines 172-187);
same structure as `startQueryRun` but the remote call returns no value
and the wait is `stopQueryWait`. -/
def stopQueryRun (oracle : Nat → Except JsError Unit)
    (config : AthenaRequestConfig) (retryCount : Nat) :
    Except JsError Unit × List TraceEv :=
  match oracle retryCount with
  | Except.ok _ => (Except.ok (), [])
  | Except.error err =>
    if h : (isRetryException err && canRetry retryCount config) = true then
      let rest := stopQueryRun oracle config (retryCount + 1)
      (rest.1, TraceEv.waited (stopQueryWait config retryCount) :: rest.2)
    else (Except.error err, [])
termination_by jsOrNat config.retryCountMax defaultRetryCountMax - retryCount
decreasing_by
  simp only [canRetry, Bool.and_eq_true, decide_eq_true_eq] at h
  omega

/-- `queryExecution.Status` as read by `checkQuery`: the raw `State`
string and the optional `StateChangeReason`. -/
structure QueryExecutionStatus where
  State : String
  StateChangeReason : Option String
deriving DecidableEq

/-- The `QueryExecution` record returned by `getQueryExecution`. -/
structure QueryExecution where
  Status : QueryExecutionStatus
deriving DecidableEq

/-- The chain of `loopFunc` invocations in `getQueryExecution`
(lines 197-214); the remote call returns a `QueryExecution` and the wait
is `getQueryExecutionWait`. -/
def getQueryExecutionRun (oracle : Nat → Except JsError QueryExecution)
    (config : AthenaRequestConfig) (retryCount : Nat) :
    Except JsError QueryExecution × List TraceEv :=
  match oracle retryCount with
  | Except.ok qe => (Except.ok qe, [])
  | Except.error err =>
    if h : (isRetryException err && canRetry retryCount config) = true then
      let rest := getQueryExecutionRun oracle config (retryCount + 1)
      (rest.1, TraceEv.waited (getQueryExecutionWait config retryCount) :: rest.2)
    else (Except.error err, [])
termination_by jsOrNat config.retryCountMax defaultRetryCountMax - retryCount
decreasing_by
  simp only [canRetry, Bool.and_eq_true, decide_eq_true_eq] at h
  omega

/-- `checkQuery` (lines 125-164), as a function of the settled outcome of
its inner `getQueryExecution` call: the `.then` handler switches on
`queryExecution.Status.State` and calls `resolve(isSucceed)` or
`reject(error)` (modelled as `Except.ok` / `Except.error`); the `.catch`
handler forwards the upstream error to `reject`.  A `new Error(msg)` is
`⟨false, msg⟩`. -/
def checkQuery (fetched : Except JsError QueryExecution) : Except JsError Bool :=
  match fetched with
  | Except.error err => Except.error err
  | Except.ok queryExecution =>
    let state := queryExecution.Status.State
    if state = "QUEUED" ∨ state = "RUNNING" then Except.ok false
    else if state = "SUCCEEDED" then Except.ok true
    else if state = "FAILED" then
      Except.error
        { isTooManyRequests := false
          message :=
            jsOrStr queryExecution.Status.StateChangeReason "FAILED: Execution Error" }
    else if state = "CANCELLED" then
      Except.error { isTooManyRequests := false, message := "FAILED: Query CANCELLED" }
    else
      Except.error
        { isTooManyRequests := false, message := "FAILED: UnKnown State " ++ state }

/-- The `AwsConfig` interface from `src/index.ts` (lines 10-14).  `region`
is modelled as optional because `createClient` explicitly guards against
`undefined`. -/
structure AwsConfig where
  region : Option String
  accessKeyId : Option String
  secretAccessKey : Option String
deriving DecidableEq

/-- The slice of `AthenaClientConfig` that `createClient` reads.  The full
type is declared in `src/lib/client.ts`, which is not part of the sources
here; `createClient` (lines 27-33) only accesses its `bucketUri` field,
modelled as optional because the code guards against `undefined`. -/
structure AthenaClientConfig where
  bucketUri : Option String
deriving DecidableEq

/-- `new AwsAthenaClient({ ...awsConfig, apiVersion: '2017-05-18' })` (line 43). -/
structure AwsAthenaClientHandle where
  config : AwsConfig
  apiVersion : String
deriving DecidableEq

/-- `new S3({ ...awsConfig, apiVersion: '2006-03-01' })` (line 44). -/
structure S3Handle where
  config : AwsConfig
  apiVersion : String
deriving DecidableEq

/-- `new AthenaRequest(athena, s3)` (line 45). -/
structure AthenaRequestHandle where
  athena : AwsAthenaClientHandle
  s3 : S3Handle
deriving DecidableEq

/-- `new AthenaClient(request, clientConfig)` (line 46). -/
structure AthenaClientHandle where
  request : AthenaRequestHandle
  config : AthenaClientConfig
deriving DecidableEq

/-- `createClient` (lines 23-47).  Both checks run before any handle is
constructed: an `Except.error` models the thrown configuration error, and
carries no constructed service handle. -/
def createClient (clientConfig : Option AthenaClientConfig)
    (awsConfig : Option AwsConfig) : Except String AthenaClientHandle :=
  match clientConfig with
  | none => Except.error "bucket uri required"
  | some cc =>
    match cc.bucketUri with
    | none => Except.error "bucket uri required"
    | some b =>
      if b.length = 0 then Except.error "bucket uri required"
      else
        match awsConfig with
        | none => Except.error "region required"
        | some aws =>
          match aws.region with
          | none => Except.error "region required"
          | some r =>
            if r.length = 0 then Except.error "region required"
            else
              Except.ok
                { request :=
                    { athena := { config := aws, apiVersion := "2017-05-18" }
                      s3 := { config := aws, apiVersion := "2006-03-01" } }
                  config := cc }

/-- JS `s.replace(pat, '')` for a non-empty literal pattern: remove the
leftmost occurrence of `pat`, if any (used in `getResultsStream`,
line 219). -/
def removeFirst (pat : List Char) : List Char → List Char
  | [] => []
  | c :: cs =>
    if pat.isPrefixOf (c :: cs) then (c :: cs).drop pat.length
    else c :: removeFirst pat cs

/-- The locator parsing in `getResultsStream` (lines 219-221):
`const arr = s3Uri.replace('s3://', '').split('/')`,
`const bucket = arr.shift() || ''`, `const key = arr.join('/')`.
`split('/')` always yields a non-empty array, so `shift` returns its
first element (with `'' || ''` = `''`). -/
def parseS3Uri (s3Uri : String) : String × String :=
  let arr := (removeFirst "s3://".toList s3Uri.toList).splitOn '/'
  (String.mk arr.headI, String.mk (List.intercalate ['/'] arr.tail))

/-- Modelled from the spec: `nextWaitMs` computes
`min(baseWaitMs * 2^attemptCount, maxWaitMs)` (spec section 4.1); used to
compare the source's wait formulas against the specified one. -/
def nextWaitMsSpec (baseWaitMs attemptCount maxWaitMs : Nat) : Nat :=
  min (baseWaitMs * 2 ^ attemptCount) maxWaitMs

/-- A request config with every optional field unspecified. -/
def sampleConfig : AthenaRequestConfig :=
  { bucketUri := "s3://bucket/path"
    baseRetryWait := none
    retryWaitMax := none
    retryCountMax := none
    database := none
    encryptionOption := none
    encryptionKmsKey := none
    workGroup := none }

/-- A non-retryable remote error (not a throttling signal). -/
def nonRetryErr : JsError := { isTooManyRequests := false, message := "AccessDenied" }

/-- A throttling error (`instanceof TooManyRequestsException`). -/
def throttleErr : JsError := { isTooManyRequests := true, message := "Rate exceeded" }

/-- A remote that succeeds immediately with execution id `qid-1`. -/
def oracleSucceed : Nat → Except JsError String := fun _ => Except.ok "qid-1"

/-- A remote that throttles the first two calls, then succeeds. -/
def oracleThrottleTwice : Nat → Except JsError String := fun n =>
  if n < 2 then Except.error throttleErr else Except.ok "qid-1"

/-! ### Helper lemmas -/

theorem jsOrNat_pos (v : Option Nat) (d : Nat) (hd : 0 < d) : 0 < jsOrNat v d := by
  cases v with
  | none => simpa [jsOrNat] using hd
  | some n =>
    by_cases h : n = 0 <;> simp [jsOrNat, h] <;> omega

theorem string_length_zero (s : String) : s.length = 0 ↔ s = "" := by
  cases s with
  | mk data =>
    constructor
    · intro h
      have hd : data = [] := by simpa [String.length] using h
      subst hd
      rfl
    · intro h
      rw [h]
      rfl

theorem isPrefixOf_append_self (pat rest : List Char) :
    pat.isPrefixOf (pat ++ rest) = true := by
  induction pat with
  | nil => simp [List.isPrefixOf]
  | cons a as ih => simp [List.isPrefixOf, List.cons_append, ih]

theorem removeFirst_append (pat rest : List Char) (h : pat ≠ []) :
    removeFirst pat (pat ++ rest) = rest := by
  cases pat with
  | nil => exact absurd rfl h
  | cons p ps =>
    rw [List.cons_append, removeFirst]
    rw [if_pos (by rw [← List.cons_append]; exact isPrefixOf_append_self _ _)]
    rw [← List.cons_append]
    exact List.drop_left _ _

theorem removeFirst_first_occurrence (pat a b : List Char) (hpat : pat ≠ [])
    (h : ∀ k, k < a.length →
      pat.isPrefixOf (List.drop k (a ++ pat ++ b)) = false) :
    removeFirst pat (a ++ pat ++ b) = a ++ b := by
  induction a with
  | nil => simpa using removeFirst_append pat b hpat
  | cons c a' ih =>
    have h0 : pat.isPrefixOf (c :: (a' ++ pat ++ b)) = false := by
      have := h 0 (by simp)
      simpa [List.cons_append] using this
    have h' : ∀ k, k < a'.length →
        pat.isPrefixOf (List.drop k (a' ++ pat ++ b)) = false := by
      intro k hk
      have := h (k + 1) (by simpa using Nat.succ_lt_succ hk)
      simpa [List.cons_append, List.drop_succ_cons] using this
    have hcond : ¬(pat.isPrefixOf (c :: (a' ++ pat ++ b)) = true) := by
      rw [h0]
      exact Bool.false_ne_true
    have key : (c :: a') ++ pat ++ b = c :: (a' ++ pat ++ b) := by simp
    show removeFirst pat ((c :: a') ++ pat ++ b) = (c :: a') ++ b
    rw [key, removeFirst, if_neg hcond, ih h']
    simp

theorem splitOn_sep_first (b k : List Char) (h : '/' ∉ b) :
    (b ++ '/' :: k).splitOn '/' = b :: k.splitOn '/' := by
  show (b ++ '/' :: k).splitOnP (· == '/') = b :: k.splitOnP (· == '/')
  apply List.splitOnP_first
  · intro x hx hbeq
    exact h (by rwa [show x = '/' from by simpa using hbeq] at hx)
  · simp

theorem splitOn_no_sep (r : List Char) (h : '/' ∉ r) : r.splitOn '/' = [r] := by
  show r.splitOnP (· == '/') = [r]
  apply List.splitOnP_eq_single
  intro x hx hbeq
  exact h (by rwa [show x = '/' from by simpa using hbeq] at hx)

theorem strMk_toList (s : String) : String.mk s.toList = s := by
  cases s
  rfl

/-! ### Claim theorems -/

/-- C3 counterexample: with all-default config the poll-path wait for
attemptCount 1 is `200^1 = 200`, not `min(200 * 2^1, 10000) = 400` as the
claim states, so the poll path does not use the doubling formula. -/
theorem pollWait_formula_counterexample :
    getQueryExecutionWait sampleConfig 1 = 200 ∧
      nextWaitMsSpec 200 1 10000 = 400 ∧
      getQueryExecutionWait sampleConfig 1 ≠ nextWaitMsSpec 200 1 10000 := by
  refine ⟨by decide, by decide, by decide⟩

/-- C3 (amended): for every config and attemptCount n, the submit-path
wait equals the specified `min(baseWaitMs * 2^n, maxWaitMs)`, while the
poll-path wait (like the stop-path wait) equals `baseWaitMs ^ n`,
uncapped. -/
theorem wait_formulas_amended (config : AthenaRequestConfig) (n : Nat) :
    startQueryWait config n =
      nextWaitMsSpec (jsOrNat config.baseRetryWait defaultBaseRetryWait) n
        (jsOrNat config.retryWaitMax defaultRetryWaitMax) ∧
    getQueryExecutionWait config n =
      jsOrNat config.baseRetryWait defaultBaseRetryWait ^ n ∧
    stopQueryWait config n =
      jsOrNat config.baseRetryWait defaultBaseRetryWait ^ n := by
  exact ⟨rfl, rfl, rfl⟩

/-- C4 counterexample: with all-default config the stop-path wait at
attemptCount 2 is `200^2 = 40000`, which exceeds the effective
maxWaitMs of 10000. -/
theorem stopWait_exceeds_cap_counterexample :
    stopQueryWait sampleConfig 2 = 40000 ∧
      jsOrNat sampleConfig.retryWaitMax defaultRetryWaitMax = 10000 ∧
      jsOrNat sampleConfig.retryWaitMax defaultRetryWaitMax <
        stopQueryWait sampleConfig 2 := by
  refine ⟨by decide, by decide, by decide⟩

/-- C4 (amended): within one outer operation the computed wait is
monotonically non-decreasing in attemptCount on all three paths, and is
capped by the effective maxWaitMs on the submit path (the stop and poll
paths use the uncapped `base ^ n`). -/
theorem wait_monotone_amended (config : AthenaRequestConfig) (n m : Nat)
    (h : n ≤ m) :
    startQueryWait config n ≤ startQueryWait config m ∧
    stopQueryWait config n ≤ stopQueryWait config m ∧
    getQueryExecutionWait config n ≤ getQueryExecutionWait config m ∧
    startQueryWait config n ≤ jsOrNat config.retryWaitMax defaultRetryWaitMax := by
  have hbase : 0 < jsOrNat config.baseRetryWait defaultBaseRetryWait :=
    jsOrNat_pos _ _ (by norm_num [defaultBaseRetryWait])
  have hpow2 : (2 : Nat) ^ n ≤ 2 ^ m := Nat.pow_le_pow_right (by norm_num) h
  refine ⟨?_, ?_, ?_, ?_⟩
  · exact min_le_min (Nat.mul_le_mul le_rfl hpow2) le_rfl
  · exact Nat.pow_le_pow_right hbase h
  · exact Nat.pow_le_pow_right hbase h
  · exact min_le_right _ _

/-- C4 witness: the amended statement instantiated at the all-default
config with attempt counts 1 ≤ 2. -/
theorem wait_monotone_amended_witness :
    startQueryWait sampleConfig 1 ≤ startQueryWait sampleConfig 2 ∧
    stopQueryWait sampleConfig 1 ≤ stopQueryWait sampleConfig 2 ∧
    getQueryExecutionWait sampleConfig 1 ≤ getQueryExecutionWait sampleConfig 2 ∧
    startQueryWait sampleConfig 1 ≤ jsOrNat sampleConfig.retryWaitMax defaultRetryWaitMax :=
  wait_monotone_amended sampleConfig 1 2 (by decide)

/-- C5: `checkQuery` classification is total over raw remote states:
QUEUED and RUNNING resolve `false`, SUCCEEDED resolves `true`, FAILED
rejects with the remote `StateChangeReason` (or the generic message when
absent), CANCELLED rejects with a cancelled-tagged message, and any other
state string rejects with an unknown-state message that carries the raw
state string. -/
theorem checkQuery_classification :
    (∀ r : Option String, checkQuery (Except.ok ⟨⟨"QUEUED", r⟩⟩) = Except.ok false) ∧
    (∀ r : Option String, checkQuery (Except.ok ⟨⟨"RUNNING", r⟩⟩) = Except.ok false) ∧
    (∀ r : Option String, checkQuery (Except.ok ⟨⟨"SUCCEEDED", r⟩⟩) = Except.ok true) ∧
    (∀ reason : String, reason ≠ "" →
      checkQuery (Except.ok ⟨⟨"FAILED", some reason⟩⟩) =
        Except.error ⟨false, reason⟩) ∧
    (checkQuery (Except.ok ⟨⟨"FAILED", none⟩⟩) =
      Except.error ⟨false, "FAILED: Execution Error"⟩) ∧
    (∀ r : Option String, checkQuery (Except.ok ⟨⟨"CANCELLED", r⟩⟩) =
      Except.error ⟨false, "FAILED: Query CANCELLED"⟩) ∧
    (∀ (state : String) (r : Option String),
      state ≠ "QUEUED" → state ≠ "RUNNING" → state ≠ "SUCCEEDED" →
      state ≠ "FAILED" → state ≠ "CANCELLED" →
      checkQuery (Except.ok ⟨⟨state, r⟩⟩) =
        Except.error ⟨false, "FAILED: UnKnown State " ++ state⟩) := by
  refine ⟨?_, ?_, ?_, ?_, ?_, ?_, ?_⟩
  · intro r; simp [checkQuery]
  · intro r; simp [checkQuery]
  · intro r; simp [checkQuery]
  · intro reason hr; simp [checkQuery, jsOrStr, hr]
  · simp [checkQuery, jsOrStr]
  · intro r; simp [checkQuery]
  · intro state r h1 h2 h3 h4 h5
    simp [checkQuery, h1, h2, h3, h4, h5]

/-- C5 witness: the classification applied to concrete states, including
a provided FAILED reason and an unrecognized state string. -/
theorem checkQuery_classification_witness :
    checkQuery (Except.ok ⟨⟨"QUEUED", none⟩⟩) = Except.ok false ∧
    checkQuery (Except.ok ⟨⟨"FAILED", some "boom"⟩⟩) = Except.error ⟨false, "boom"⟩ ∧
    checkQuery (Except.ok ⟨⟨"WAT", none⟩⟩) =
      Except.error ⟨false, "FAILED: UnKnown State WAT"⟩ :=
  ⟨checkQuery_classification.1 none,
    checkQuery_classification.2.2.2.1 "boom" (by decide),
    checkQuery_classification.2.2.2.2.2.2 "WAT" none (by decide) (by decide)
      (by decide) (by decide) (by decide)⟩

/-- C6: a retry is taken only when the error is transient (a
`TooManyRequestsException` or the scale-factor exhaustion message) and
`retryCount` is strictly below the effective `retryCountMax`; at
`retryCount = retryCountMax` the guard is false for every error, the
default bound is 10, and the `startQuery` loop performs no retry (empty
wait trace) when the bound is reached. -/
theorem shouldRetry_characterization :
    (∀ (err : JsError) (n : Nat) (config : AthenaRequestConfig),
      (isRetryException err && canRetry n config) = true ↔
        ((err.isTooManyRequests = true ∨
          err.message = "Query exhausted resources at this scale factor") ∧
          n < jsOrNat config.retryCountMax defaultRetryCountMax)) ∧
    (∀ (err : JsError) (config : AthenaRequestConfig),
      (isRetryException err &&
        canRetry (jsOrNat config.retryCountMax defaultRetryCountMax) config) = false) ∧
    (∀ config : AthenaRequestConfig, config.retryCountMax = none →
      jsOrNat config.retryCountMax defaultRetryCountMax = 10) ∧
    (∀ (oracle : Nat → Except JsError String) (config : AthenaRequestConfig)
      (err : JsError),
      oracle (jsOrNat config.retryCountMax defaultRetryCountMax) = Except.error err →
      startQueryRun oracle config (jsOrNat config.retryCountMax defaultRetryCountMax) =
        (Except.error err, [])) := by
  refine ⟨?_, ?_, ?_, ?_⟩
  · intro err n config
    simp [isRetryException, canRetry, Bool.and_eq_true, Bool.or_eq_true,
      beq_iff_eq, decide_eq_true_eq, and_comm]
  · intro err config
    have hc : canRetry (jsOrNat config.retryCountMax defaultRetryCountMax) config
        = false := by simp [canRetry]
    simp [hc]
  · intro config h
    simp [h, jsOrNat, defaultRetryCountMax]
  · intro oracle config err h
    rw [startQueryRun, h]
    have hc : canRetry (jsOrNat config.retryCountMax defaultRetryCountMax) config
        = false := by simp [canRetry]
    simp [hc]

/-- C6 witness: the characterization at a throttling error with
attemptCount 3, the default bound, and a non-retryable error at the bound. -/
theorem shouldRetry_characterization_witness :
    ((isRetryException throttleErr && canRetry 3 sampleConfig) = true ↔
      ((throttleErr.isTooManyRequests = true ∨
        throttleErr.message = "Query exhausted resources at this scale factor") ∧
        3 < jsOrNat sampleConfig.retryCountMax defaultRetryCountMax)) ∧
    jsOrNat sampleConfig.retryCountMax defaultRetryCountMax = 10 ∧
    startQueryRun (fun _ => Except.error nonRetryErr) sampleConfig
        (jsOrNat sampleConfig.retryCountMax defaultRetryCountMax) =
      (Except.error nonRetryErr, []) :=
  ⟨shouldRetry_characterization.1 throttleErr 3 sampleConfig,
    shouldRetry_characterization.2.2.1 sampleConfig rfl,
    shouldRetry_characterization.2.2.2 (fun _ => Except.error nonRetryErr)
      sampleConfig nonRetryErr rfl⟩

/-- A concrete client config for witnesses. -/
def sampleClientConfig : AthenaClientConfig := { bucketUri := some "s3://bucket/path" }

/-- A concrete AWS config for witnesses. -/
def sampleAwsConfig : AwsConfig :=
  { region := some "us-east-1", accessKeyId := none, secretAccessKey := none }

/-- C7: `createClient` throws the bucket-uri configuration error whenever
the client config is missing or its `bucketUri` is missing or empty, then
throws the region configuration error whenever the AWS config is missing
or its `region` is missing or empty, and only otherwise constructs and
returns the client (the error outcomes carry no constructed handle). -/
theorem createClient_validation :
    (∀ aws : Option AwsConfig,
      createClient none aws = Except.error "bucket uri required") ∧
    (∀ (cc : AthenaClientConfig) (aws : Option AwsConfig),
      cc.bucketUri = none ∨ cc.bucketUri = some "" →
      createClient (some cc) aws = Except.error "bucket uri required") ∧
    (∀ (cc : AthenaClientConfig) (b : String),
      cc.bucketUri = some b → b ≠ "" →
      createClient (some cc) none = Except.error "region required") ∧
    (∀ (cc : AthenaClientConfig) (b : String) (aws : AwsConfig),
      cc.bucketUri = some b → b ≠ "" →
      aws.region = none ∨ aws.region = some "" →
      createClient (some cc) (some aws) = Except.error "region required") ∧
    (∀ (cc : AthenaClientConfig) (b : String) (aws : AwsConfig) (r : String),
      cc.bucketUri = some b → b ≠ "" → aws.region = some r → r ≠ "" →
      createClient (some cc) (some aws) =
        Except.ok
          { request :=
              { athena := { config := aws, apiVersion := "2017-05-18" }
                s3 := { config := aws, apiVersion := "2006-03-01" } }
            config := cc }) := by
  refine ⟨?_, ?_, ?_, ?_, ?_⟩
  · intro aws; rfl
  · intro cc aws h
    rcases h with h | h <;> simp [createClient, h]
  · intro cc b hb hbe
    simp [createClient, hb, string_length_zero, hbe]
  · intro cc b aws hb hbe h
    rcases h with h | h <;>
      simp [createClient, hb, string_length_zero, hbe, h]
  · intro cc b aws r hb hbe hr hre
    simp [createClient, hb, string_length_zero, hbe, hr, hre]

/-- C7 witness: a valid config pair yields the constructed client; a
missing bucket uri and an empty region each yield the configuration
error. -/
theorem createClient_validation_witness :
    createClient none (some sampleAwsConfig) = Except.error "bucket uri required" ∧
    createClient (some { bucketUri := some "" }) (some sampleAwsConfig) =
      Except.error "bucket uri required" ∧
    createClient (some sampleClientConfig)
        (some { region := some "", accessKeyId := none, secretAccessKey := none }) =
      Except.error "region required" ∧
    createClient (some sampleClientConfig) (some sampleAwsConfig) =
      Except.ok
        { request :=
            { athena := { config := sampleAwsConfig, apiVersion := "2017-05-18" }
              s3 := { config := sampleAwsConfig, apiVersion := "2006-03-01" } }
          config := sampleClientConfig } :=
  ⟨createClient_validation.1 (some sampleAwsConfig),
    createClient_validation.2.1 { bucketUri := some "" } (some sampleAwsConfig)
      (Or.inr rfl),
    createClient_validation.2.2.2.1 sampleClientConfig "s3://bucket/path"
      { region := some "", accessKeyId := none, secretAccessKey := none }
      rfl (by decide) (Or.inr rfl),
    createClient_validation.2.2.2.2 sampleClientConfig "s3://bucket/path"
      sampleAwsConfig "us-east-1" rfl (by decide) rfl (by decide)⟩

/-- C9: with the corresponding config fields unspecified, the effective
retry parameters are 200 / 10000 / 10 and the remote request is built
with database `default` and work group `primary`. -/
theorem defaults_applied (query : String) (config : AthenaRequestConfig)
    (h1 : config.baseRetryWait = none) (h2 : config.retryWaitMax = none)
    (h3 : config.retryCountMax = none) (h4 : config.database = none)
    (h5 : config.workGroup = none) :
    jsOrNat config.baseRetryWait defaultBaseRetryWait = 200 ∧
    jsOrNat config.retryWaitMax defaultRetryWaitMax = 10000 ∧
    jsOrNat config.retryCountMax defaultRetryCountMax = 10 ∧
    (buildStartParams query config).Database = "default" ∧
    (buildStartParams query config).WorkGroup = "primary" ∧
    (∀ n, startQueryWait config n = min (200 * 2 ^ n) 10000) ∧
    (∀ n, canRetry n config = true ↔ n < 10) := by
  refine ⟨?_, ?_, ?_, ?_, ?_, ?_, ?_⟩ <;>
    simp [h1, h2, h3, h4, h5, jsOrNat, jsOrStr, buildStartParams, startQueryWait,
      canRetry, defaultBaseRetryWait, defaultRetryWaitMax, defaultRetryCountMax]

/-- C9 witness: the defaults at the all-default config. -/
theorem defaults_applied_witness :
    jsOrNat sampleConfig.baseRetryWait defaultBaseRetryWait = 200 ∧
    jsOrNat sampleConfig.retryWaitMax defaultRetryWaitMax = 10000 ∧
    jsOrNat sampleConfig.retryCountMax defaultRetryCountMax = 10 ∧
    (buildStartParams "SELECT 1" sampleConfig).Database = "default" ∧
    (buildStartParams "SELECT 1" sampleConfig).WorkGroup = "primary" ∧
    (∀ n, startQueryWait sampleConfig n = min (200 * 2 ^ n) 10000) ∧
    (∀ n, canRetry n sampleConfig = true ↔ n < 10) :=
  defaults_applied "SELECT 1" sampleConfig rfl rfl rfl rfl rfl

/-- C8: for a locator of the form `s3://<bucket>/<key>` (bucket free of
separators), the parsing in `getResultsStream` yields exactly that bucket
and that key, preserving any separators inside the key; in particular
`s3://my-bucket/path/to/object.csv` resolves to bucket `my-bucket` and
key `path/to/object.csv`. -/
theorem parseS3Uri_bucket_key :
    (∀ bucket key : String, '/' ∉ bucket.toList →
      parseS3Uri ("s3://" ++ bucket ++ "/" ++ key) = (bucket, key)) ∧
    parseS3Uri "s3://my-bucket/path/to/object.csv" =
      ("my-bucket", "path/to/object.csv") := by
  constructor
  · intro bucket key h
    have hlist : ("s3://" ++ bucket ++ "/" ++ key).toList
        = "s3://".toList ++ (bucket.toList ++ '/' :: key.toList) := by
      show ("s3://" ++ bucket ++ "/" ++ key).data
          = "s3://".data ++ (bucket.data ++ '/' :: key.data)
      simp [String.data_append]
    simp only [parseS3Uri]
    rw [hlist, removeFirst_append _ _ (by decide), splitOn_sep_first _ _ h]
    simp only [List.headI_cons, List.tail_cons]
    rw [List.intercalate_splitOn, strMk_toList, strMk_toList]
  · decide

/-- C8 witness: the general statement applied to bucket `my-bucket` and
key `path/to/object.csv`. -/
theorem parseS3Uri_bucket_key_witness :
    parseS3Uri ("s3://" ++ "my-bucket" ++ "/" ++ "path/to/object.csv") =
      ("my-bucket", "path/to/object.csv") :=
  parseS3Uri_bucket_key.1 "my-bucket" "path/to/object.csv" (by decide)

/-- C10: the locator parsing is a total function; it removes exactly the
leftmost occurrence of `s3://` anywhere in the string (not necessarily a
prefix, witnessed concretely by `as3://b/c`), the bucket is empty when
the remaining string is empty, and the key is empty when the remaining
string contains no separator. -/
theorem parseS3Uri_total_first_occurrence :
    (∀ s : String, removeFirst "s3://".toList s.toList = [] →
      parseS3Uri s = ("", "")) ∧
    (∀ s : String, '/' ∉ removeFirst "s3://".toList s.toList →
      (parseS3Uri s).2 = "") ∧
    (∀ a b : List Char,
      (∀ k, k < a.length →
        "s3://".toList.isPrefixOf (List.drop k (a ++ "s3://".toList ++ b)) = false) →
      removeFirst "s3://".toList (a ++ "s3://".toList ++ b) = a ++ b) ∧
    parseS3Uri "as3://b/c" = ("ab", "c") ∧
    parseS3Uri "s3://bucket-only" = ("bucket-only", "") ∧
    parseS3Uri "s3://" = ("", "") := by
  refine ⟨?_, ?_, ?_, by decide, by decide, by decide⟩
  · intro s h
    simp only [parseS3Uri]
    rw [h]
    rfl
  · intro s h
    simp only [parseS3Uri]
    rw [splitOn_no_sep _ h]
    rfl
  · intro a b h
    exact removeFirst_first_occurrence _ a b (by decide) h

/-- C10 witness: the hypotheses discharged at concrete locators — an
empty remainder, a remainder with no separator, and a non-prefix
occurrence of the scheme. -/
theorem parseS3Uri_total_first_occurrence_witness :
    parseS3Uri "s3://" = ("", "") ∧
    (parseS3Uri "s3://bucket-only").2 = "" ∧
    removeFirst "s3://".toList (['a'] ++ "s3://".toList ++ "b/c".toList) =
      ['a'] ++ "b/c".toList :=
  ⟨parseS3Uri_total_first_occurrence.1 "s3://" (by decide),
    parseS3Uri_total_first_occurrence.2.1 "s3://bucket-only" (by decide),
    parseS3Uri_total_first_occurrence.2.2.1 ['a'] "b/c".toList (by decide)⟩

/-- C1 (code bug): when the remote `StartQueryExecution` call succeeds —
immediately, or after two throttled attempts and retries — the chain of
`loopFunc` invocations computes the execution id (`Except.ok "qid-1"`),
but the executor trace contains no settle event whatsoever (only the
retry waits): `resolve` is never called, so the Promise returned by
`startQuery` never resolves with the QueryHandle; the id is discarded. -/
theorem startQuery_success_never_resolves :
    startQueryRun oracleSucceed sampleConfig 0 = (Except.ok "qid-1", []) ∧
    startQueryRun oracleThrottleTwice sampleConfig 0 =
      (Except.ok "qid-1", [TraceEv.waited 200, TraceEv.waited 400]) ∧
    List.filter isSettleEv [TraceEv.waited 200, TraceEv.waited 400] = [] := by
  refine ⟨?_, ?_, by decide⟩
  · rw [startQueryRun]
    simp [oracleSucceed]
  · rw [startQueryRun]
    norm_num [oracleThrottleTwice, throttleErr, isRetryException, canRetry,
      jsOrNat, sampleConfig, defaultRetryCountMax]
    rw [startQueryRun]
    norm_num [oracleThrottleTwice, throttleErr, isRetryException, canRetry,
      jsOrNat, sampleConfig, defaultRetryCountMax]
    rw [startQueryRun]
    norm_num [oracleThrottleTwice, startQueryWait, jsOrNat, sampleConfig,
      defaultBaseRetryWait, defaultRetryWaitMax]

/-- C2 (code bug): on a non-retryable remote failure each of the three
loops ends with `throw err` inside the discarded `async` `loopFunc`
(`Except.error nonRetryErr` as the loop outcome), and the executor trace
contains no `rejected` event: the Promise returned by `startQuery`,
`stopQuery` and `getQueryExecution` never rejects, so the failure is
silently swallowed (an unhandled rejection), contrary to the claim. -/
theorem remote_failure_never_rejects :
    startQueryRun (fun _ => Except.error nonRetryErr) sampleConfig 0 =
      (Except.error nonRetryErr, []) ∧
    stopQueryRun (fun _ => Except.error nonRetryErr) sampleConfig 0 =
      (Except.error nonRetryErr, []) ∧
    getQueryExecutionRun (fun _ => Except.error nonRetryErr) sampleConfig 0 =
      (Except.error nonRetryErr, []) := by
  have hr : isRetryException nonRetryErr = false := by decide
  refine ⟨?_, ?_, ?_⟩
  · rw [startQueryRun]
    simp [hr]
  · rw [stopQueryRun]
    simp [hr]
  · rw [getQueryExecutionRun]
    simp [hr]
